import Mathlib

/-!
Verification of the Pyvolt core subsystem (REST request dispatcher with
per-route rate limiting, and the Delta WebSocket gateway session) against
its natural-language specification.  The Python sources `pyvolt/http.py`,
`pyvolt/core/gateway.py` and `pyvolt/client.py` are shallowly embedded:
pure fragments become Lean functions, stateful fragments become explicit
state-passing functions, and the observable actions of a code path are
collected into explicit event traces.
-/

namespace Pyvolt

/-! ## Route and bucket keys (`pyvolt/http.py`, class `Route`) -/

/-- `Snowflake = NewType("_id", str)`: identifiers are strings. -/
abbrev Snowflake := String

/-- A REST route.  `method` and `path` are the constructor arguments;
`channel_id` and `server_id` are the major parameters extracted from the
keyword arguments (`parameters.get("channel_id")` / `.get("server_id")`),
absent parameters being Python `None`. -/
structure Route where
  method : String
  path : String
  channel_id : Option Snowflake := none
  server_id : Option Snowflake := none
deriving DecidableEq, Repr

/-- Rendering of an optional value inside a Python f-string:
`None` prints as `"None"`, a `str` prints as itself. -/
def fstrOpt : Option String → String
  | none => "None"
  | some s => s

/-- `Route.bucket`: the source computes
`f"{self.channel_id}:{self.server_id}:{self.path}"`.
Note the HTTP method does not appear in the computed key, although the
comment above this property in the source reads
"the bucket is just method + path w/ major parameters". -/
def Route.bucket (r : Route) : String :=
  fstrOpt r.channel_id ++ ":" ++ fstrOpt r.server_id ++ ":" ++ r.path

/-! ## Gateway rate limiter (`pyvolt/core/gateway.py`, `GatewayRatelimiter`) -/

/-- Mutable state of `GatewayRatelimiter`: `max` and `remaining` count
frames, `window` and `per` are clock values in seconds.  The default is
`count=110, per=60.0`.  Clock values are modelled as rationals. -/
structure GatewayRatelimiter where
  max : Nat
  remaining : Nat
  window : ℚ
  per : ℚ
deriving DecidableEq, Repr

/-- The limiter as freshly constructed: `GatewayRatelimiter()` with the
defaults `count=110`, `per=60.0`, `window=0.0`. -/
def GatewayRatelimiter.init : GatewayRatelimiter :=
  { max := 110, remaining := 110, window := 0, per := 60 }

/-- `GatewayRatelimiter.get_delay(self)` with `current = time.time()`
passed explicitly: returns the delay to sleep and the updated state. -/
def GatewayRatelimiter.get_delay (s : GatewayRatelimiter) (current : ℚ) :
    ℚ × GatewayRatelimiter :=
  let s := if current > s.window + s.per then { s with remaining := s.max } else s
  let s := if s.remaining = s.max then { s with window := current } else s
  if s.remaining = 0 then
    (s.per - (current - s.window), s)
  else
    let s := { s with remaining := s.remaining - 1 }
    let s := if s.remaining = 0 then { s with window := current } else s
    (0, s)

/-- `GatewayRatelimiter.is_ratelimited(self)`. -/
def GatewayRatelimiter.is_ratelimited (s : GatewayRatelimiter) (current : ℚ) : Bool :=
  if current > s.window + s.per then false else s.remaining = 0

/-! ## Outbound gateway frames and the send path -/

/-- An outbound gateway payload; the heartbeat is
`{"type": "Ping", "data": 0}` (`DeltaWebSocket.send_heartbeat`). -/
structure GwPayload where
  type : String
  data : Nat
deriving DecidableEq, Repr

def pingPayload : GwPayload := { type := "Ping", data := 0 }

/-- Observable actions of the gateway send path. -/
inductive GwEvent where
  | sleep (d : ℚ)
  | send (p : GwPayload)
deriving DecidableEq, Repr

/-- `GatewayRatelimiter.block(self)`: runs `get_delay` under the lock and
sleeps when the returned delta is non-zero.  Returns the trace of actions
and the updated limiter state. -/
def GatewayRatelimiter.block (s : GatewayRatelimiter) (current : ℚ) :
    List GwEvent × GatewayRatelimiter :=
  let (delta, s) := s.get_delay current
  (if delta ≠ 0 then [GwEvent.sleep delta] else [], s)

/-- `DeltaWebSocket.send_payload(self, payload)`: awaits
`self._rate_limiter.block()` and then transmits the payload on the
socket. -/
def send_payload (s : GatewayRatelimiter) (current : ℚ) (payload : GwPayload) :
    List GwEvent × GatewayRatelimiter :=
  let (evs, s) := s.block current
  (evs ++ [GwEvent.send payload], s)

/-- `DeltaWebSocket.send_heartbeat(self)`: the body is
`await self.send_payload({"type": "Ping", "data": 0})` inside a
`try`/`except RuntimeError`; the happy path is exactly a `send_payload`
of the ping frame.  (The comment above it in the source claims this
bypasses the rate limit handling code.) -/
def send_heartbeat (s : GatewayRatelimiter) (current : ℚ) :
    List GwEvent × GatewayRatelimiter :=
  send_payload s current pingPayload

/-! ## HTTP request dispatcher (`pyvolt/http.py`, `HTTPClient.request`) -/

/-- The decoded body of an HTTP response, as returned by `json_or_text`:
either plain text, or a JSON object.  For rate-limit handling only the
`retry_after` field and the optional `global` field matter
(`data['retry_after']`, `data.get('global', False)`). -/
inductive RespData where
  | text (s : String)
  | json (retry_after : ℚ) (isGlobal : Option Bool)
deriving DecidableEq, Repr

/-- `isinstance(data, str)`. -/
def RespData.isText : RespData → Bool
  | .text _ => true
  | .json _ _ => false

/-- One HTTP response as seen by the attempt loop: the status code, the
truthiness of the `Via` header (`response.headers.get('Via')`), and the
decoded body. -/
structure HttpResponse where
  status : Nat
  hasVia : Bool
  data : RespData
deriving DecidableEq, Repr

/-- Observable actions of `HTTPClient.request`. -/
inductive ReqEvent where
  | waitGate
  | acquireLock (bucket : String)
  | httpAttempt (i : Nat)
  | gateClear
  | sleep (d : ℚ)
  | gateSet
  | releaseLock (bucket : String)
deriving DecidableEq, Repr

/-- The termination of one `HTTPClient.request` call: a returned body or
one of the typed exceptions raised in the source. -/
inductive ReqOutcome where
  | success (data : RespData)
  | httpException (status : Nat)
  | forbidden (status : Nat)
  | notFound (status : Nat)
  | revoltServerError (status : Nat)
  | runtimeError
deriving DecidableEq, Repr

/-- The body of `for tries in range(5)` in `HTTPClient.request`, with the
response of attempt `i` given by `responses i`.  `fuel` is the number of
loop iterations left (`5 - tries`), and `last` is the Python variable
`response` (the last response received, `None` before the first attempt).
Returns the trace of observable actions and the call's outcome.  The
`except OSError` arm is not modelled: every attempt here yields an HTTP
response. -/
def requestLoop (responses : Nat → HttpResponse) : Nat → Nat →
    Option HttpResponse → List ReqEvent × ReqOutcome
  | _, 0, last =>
    -- we fell out of the loop: `if response is not None: ...`
    match last with
    | some r =>
      if r.status ≥ 500 then ([], .revoltServerError r.status)
      else ([], .httpException r.status)
    | none => ([], .runtimeError)
  | tries, fuel + 1, _ =>
    let r := responses tries
    let ev := [ReqEvent.httpAttempt tries]
    if 200 ≤ r.status ∧ r.status < 300 then
      (ev, .success r.data)
    else if r.status = 429 then
      if ¬ r.hasVia ∨ r.data.isText then
        -- "Banned by Cloudflare more than likely."
        (ev, .httpException r.status)
      else
        match r.data with
        | .text _ => (ev, .httpException r.status)
        | .json retry_after g =>
          let is_global := g.getD false
          let gateEvs :=
            (if is_global then [ReqEvent.gateClear] else [])
              ++ [ReqEvent.sleep retry_after]
              ++ (if is_global then [ReqEvent.gateSet] else [])
          let rest := requestLoop responses (tries + 1) fuel (some r)
          (ev ++ gateEvs ++ rest.1, rest.2)
    else if r.status = 500 ∨ r.status = 502 ∨ r.status = 504 then
      let rest := requestLoop responses (tries + 1) fuel (some r)
      (ev ++ [ReqEvent.sleep (1 + tries * 2)] ++ rest.1, rest.2)
    else if r.status = 403 then (ev, .forbidden r.status)
    else if r.status = 404 then (ev, .notFound r.status)
    else if r.status ≥ 500 then (ev, .revoltServerError r.status)
    else (ev, .httpException r.status)

/-- `HTTPClient.request(self, route, ...)`: waits on the global-cooldown
event when it is cleared, acquires the route's bucket lock, runs the
attempt loop, and releases the lock on every exit path (`MaybeUnlock`
without `defer`). -/
def request (globalOverSet : Bool) (bucket : String)
    (responses : Nat → HttpResponse) : List ReqEvent × ReqOutcome :=
  let pre := (if ¬ globalOverSet then [ReqEvent.waitGate] else [])
    ++ [ReqEvent.acquireLock bucket]
  let body := requestLoop responses 0 5 none
  (pre ++ body.1 ++ [ReqEvent.releaseLock bucket], body.2)

/-- Whether a trace event is an HTTP attempt. -/
def isAttempt : ReqEvent → Bool
  | .httpAttempt _ => true
  | _ => false

/-- Number of HTTP attempts recorded in a trace. -/
def countAttempts : List ReqEvent → Nat
  | [] => 0
  | e :: es => (if isAttempt e then 1 else 0) + countAttempts es

/-! ## Close-code classification and `poll_event`
(`pyvolt/core/gateway.py`, `DeltaWebSocket`) -/

/-- Python `a or b` on optional close codes: `self._close_code or
self.socket.close_code` takes the left value when it is truthy (a
non-zero integer), otherwise the right one. -/
def pyOrOpt (a b : Option Int) : Option Int :=
  match a with
  | some c => if c ≠ 0 then some c else b
  | none => b

/-- The tuple of close codes in `_can_handle_close`. -/
def terminalCloseCodes : List Int := [1000, 4004, 4010, 4011, 4012, 4013, 4014]

/-- `DeltaWebSocket._can_handle_close(self)`:
`code = self._close_code or self.socket.close_code` and then
`code not in (1000, 4004, 4010, 4011, 4012, 4013, 4014)`.
A `None` code is not in the tuple, hence handled. -/
def can_handle_close (closeCode socketCloseCode : Option Int) : Bool :=
  match pyOrOpt closeCode socketCloseCode with
  | some c => decide (c ∉ terminalCloseCodes)
  | none => true

/-- How one `poll_event` call ends, seen from the caller. -/
inductive PollResult where
  | normalReturn
  | reconnectWebSocket
  | connectionClosed (code : Option Int)
deriving DecidableEq, Repr

/-- The `except (asyncio.TimeoutError, WebSocketClosure)` arm of
`poll_event` when the socket was observed closed (`WebSocketClosure`):
`code = self._close_code or self.socket.close_code`, then
`ReconnectWebSocket` when `_can_handle_close()` and
`ConnectionClosed(..., code=code)` otherwise. -/
def pollClosureOutcome (closeCode socketCloseCode : Option Int) : PollResult :=
  let code := pyOrOpt closeCode socketCloseCode
  if can_handle_close closeCode socketCloseCode then
    .reconnectWebSocket
  else
    .connectionClosed code

/-- The `KeepAliveHandler` thread as far as its externally visible state
goes: whether its `_stop_ev` event has been set. -/
structure KeepAliveHandler where
  stopEvSet : Bool
deriving DecidableEq, Repr

/-- The slice of `DeltaWebSocket` state that `poll_event`'s exception arm
touches: the `_keep_alive` reference. -/
structure WSState where
  keep_alive : Option KeepAliveHandler
deriving DecidableEq, Repr

/-- The `except` arm of `poll_event` on `asyncio.TimeoutError`: the keep
alive handler, if any, is stopped (`self._keep_alive.stop()`) and the
reference is dropped (`self._keep_alive = None`), then the function
returns without raising.  The first component of the result is the new
socket state, the second the stopped handler (so the side effect on the
detached thread stays observable), the third the caller-visible result. -/
def poll_event_timeout (st : WSState) : WSState × Option KeepAliveHandler × PollResult :=
  match st.keep_alive with
  | some ka => ({ keep_alive := none }, some { ka with stopEvSet := true }, .normalReturn)
  | none => ({ keep_alive := none }, none, .normalReturn)

/-- The `event_type == "authenticated"` arm of
`DeltaWebSocket.received_payload`: a fresh `KeepAliveHandler` is created
(its stop event unset), an immediate heartbeat is sent, and the handler
is started. -/
def received_authenticated (_st : WSState) : WSState :=
  { keep_alive := some { stopEvSet := false } }

/-! ## `Client.connect` exception handling (`pyvolt/client.py`) -/

/-- The exceptions `Client.connect` catches around the poll loop. -/
inductive ConnectExc where
  | reconnectWebSocket
  | connectionClosed (code : Option Int)
  | osError (errno : Int)
  | httpException (status : Nat)
  | timeoutError
deriving DecidableEq, Repr

/-- What `connect` does next after handling one caught exception. -/
inductive ConnectAction where
  | returnCleanly
  | continueLoop
  | closeAndRaise (exc : ConnectExc)
  | backoffRetry
deriving DecidableEq, Repr

/-- The two `except` blocks of `Client.connect`, given the `reconnect`
flag and the `self.is_closed()` flag at the time the exception arrives.
Every arm first dispatches `"disconnect"`; that effect is uniform and
not recorded.  `ExponentialBackoff` is absent from the sources (only
imported); per the spec's Backoff State its `delay()` yields a finite
delay, after which the `while` loop continues — modelled as
`backoffRetry`. -/
def connectHandleExc (reconnect closed : Bool) (exc : ConnectExc) : ConnectAction :=
  match exc with
  | .reconnectWebSocket => .continueLoop
  | _ =>
    if ¬ reconnect then
      match exc with
      | .connectionClosed (some 1000) => .returnCleanly
      | _ => .closeAndRaise exc
    else if closed then .returnCleanly
    else
      match exc with
      | .osError errno =>
        if errno = 54 ∨ errno = 10054 then .continueLoop else .backoffRetry
      | .connectionClosed code =>
        if code ≠ some 1000 then .closeAndRaise exc else .backoffRetry
      | _ => .backoffRetry

/-- Composition used by claim C3: a gateway close with the given socket
close code first classifies in `poll_event` (raising either
`ReconnectWebSocket` or `ConnectionClosed`), and `connect` then handles
whichever exception was raised. -/
def connectOnClose (reconnect closed : Bool) (socketCloseCode : Option Int) :
    ConnectAction :=
  match pollClosureOutcome none socketCloseCode with
  | .reconnectWebSocket => connectHandleExc reconnect closed .reconnectWebSocket
  | .connectionClosed code => connectHandleExc reconnect closed (.connectionClosed code)
  | .normalReturn => .continueLoop

/-! ## `HTTPClient.static_login` (`pyvolt/http.py`) -/

/-- A credential: `Token` exposes a type (`bot`/`session`) and a value. -/
structure Token where
  type : String
  value : String
deriving DecidableEq, Repr

/-- The result of the authenticated self-fetch
`await self.request(Route("GET", "/users/@me"))`: either a user payload
or an `HTTPException` (all typed HTTP errors in `errors.py` subclass it)
carrying the response status. -/
inductive FetchResult where
  | ok (user : String)
  | httpError (status : Nat)
deriving DecidableEq, Repr

/-- How `static_login` ends. -/
inductive LoginOutcome where
  | success (user : String)
  | loginFailure
  | reraised (status : Nat)
deriving DecidableEq, Repr

/-- `HTTPClient.static_login(self, token)` from the point where the
stored token is swapped: `old_token = self.token; self.token = token`,
then the self-fetch; on `HTTPException` the token is restored
(`self.token = old_token`) and a 401 becomes `LoginFailure` while any
other status re-raises.  Returns the stored token after the call and the
outcome. -/
def static_login (storedToken : Option Token) (token : Token)
    (fetch : FetchResult) : Option Token × LoginOutcome :=
  let old_token := storedToken
  -- self.token = token
  match fetch with
  | .ok u => (some token, .success u)
  | .httpError status =>
    if status = 401 then (old_token, .loginFailure)
    else (old_token, .reraised status)

/-! ## Listener scan on a received frame
(`DeltaWebSocket.received_payload` and `Client.dispatch`) -/

/-- The state of an `asyncio.Future` held by a listener entry. -/
inductive FutureState where
  | pending
  | cancelled
  | done (value : Nat)
  | failed (exc : Nat)
deriving DecidableEq, Repr

/-- One registered `EventListener` entry:
`namedtuple("EventListener", "predicate event result future")`.  Event
payloads and exceptions are modelled as naturals; the predicate either
raises (`Except.error`) or returns a boolean, and `result` optionally
transforms the payload. -/
structure EventListener where
  event : String
  predicate : Nat → Except Nat Bool
  result : Option (Nat → Nat)
  future : FutureState

/-- Processing of one entry of `self._dispatch_listeners` inside the
scan loop of `received_payload`: returns the entry with its future
updated, and whether its index was appended to `removed`. -/
def processEntry (event_type : String) (data : Nat) (e : EventListener) :
    EventListener × Bool :=
  if e.event ≠ event_type then (e, false)
  else match e.future with
  | .cancelled => (e, true)
  | _ =>
    match e.predicate data with
    | .error exc => ({ e with future := .failed exc }, true)
    | .ok valid =>
      if valid then
        let ret := match e.result with | none => data | some f => f data
        ({ e with future := .done ret }, true)
      else (e, false)

/-- `del xs[i]` on a Python list. -/
def pyDeleteAt {α : Type} : List α → Nat → List α
  | [], _ => []
  | _ :: xs, 0 => xs
  | x :: xs, n + 1 => x :: pyDeleteAt xs n

/-- First phase of the scan over `self._dispatch_listeners` in
`received_payload`: walk the entries in insertion order (`enumerate`),
updating each future and collecting the indices appended to `removed`.
Every exception a predicate raises is caught inside the loop, so the
scan itself returns normally (`Except.ok`); the `Except` layer records
that no exception escapes to the receive loop. -/
def scanListeners (event_type : String) (data : Nat) :
    List EventListener → Nat → Except Nat (List EventListener × List Nat)
  | [], _ => .ok ([], [])
  | e :: es, index =>
    let pe := processEntry event_type data e
    match scanListeners event_type data es (index + 1) with
    | .error exc => .error exc
    | .ok p =>
      .ok (pe.1 :: p.1, if pe.2 then index :: p.2 else p.2)

/-- Second phase: `for index in reversed(removed): del self._dispatch_listeners[index]`.
`removed` is in increasing index order, so the fold deletes from the
back. -/
def deleteReversed {α : Type} (xs : List α) (removed : List Nat) : List α :=
  removed.reverse.foldl pyDeleteAt xs

/-- The whole listener scan of `received_payload`: updated futures of
all scanned entries, and the listener list after the deferred removals. -/
def received_payload_scan (event_type : String) (data : Nat)
    (listeners : List EventListener) :
    Except Nat (List EventListener × List EventListener) :=
  match scanListeners event_type data listeners 0 with
  | .error exc => .error exc
  | .ok (scanned, removed) => .ok (scanned, deleteReversed scanned removed)

/-- One entry of `Client._listeners[event]`: a `(future, condition)`
pair.  The condition either raises or returns a boolean on the
dispatched argument. -/
structure ClientListener where
  condition : Nat → Except Nat Bool
  future : FutureState

/-- Processing of one `(future, condition)` pair in `Client.dispatch`,
for a dispatch carrying exactly one argument (`future.set_result(args[0])`). -/
def processClientListener (arg : Nat) (l : ClientListener) :
    ClientListener × Bool :=
  match l.future with
  | .cancelled => (l, true)
  | _ =>
    match l.condition arg with
    | .error exc => ({ l with future := .failed exc }, true)
    | .ok result =>
      if result then ({ l with future := .done arg }, true)
      else (l, false)

/-- The scan loop of `Client.dispatch` over `self._listeners[event]`,
collecting removal indices in insertion order; exceptions from
conditions are caught inside the loop. -/
def dispatchScan (arg : Nat) :
    List ClientListener → Nat → Except Nat (List ClientListener × List Nat)
  | [], _ => .ok ([], [])
  | l :: ls, i =>
    let pl := processClientListener arg l
    match dispatchScan arg ls (i + 1) with
    | .error exc => .error exc
    | .ok p =>
      .ok (pl.1 :: p.1, if pl.2 then i :: p.2 else p.2)

/-- `Client.dispatch`'s listener handling for a one-argument event:
after the scan, either the whole event key is popped (when every entry
was removed) or the removed indices are deleted in reverse order. -/
def dispatch_listeners (arg : Nat) (listeners : List ClientListener) :
    Except Nat (List ClientListener × List ClientListener) :=
  match dispatchScan arg listeners 0 with
  | .error exc => .error exc
  | .ok (scanned, removed) =>
    if removed.length = listeners.length then .ok (scanned, [])
    else .ok (scanned, deleteReversed scanned removed)

/-! ## Claim theorems -/

/-- C1 (code_bug evaluation): the spec's bucket-key invariant says two
routes agreeing on major parameters and path template but differing in
HTTP method get different bucket-keys.  On the code, `Route.bucket` drops
the method: `GET /channels/{channel_id}` (`fetch_channel`) and
`DELETE /channels/{channel_id}` (`close_channel`) with
`channel_id="C1"` have different methods yet the same bucket-key, while
the claim's positive scenario (`GET /channels/{channel_id}` versus
`POST /channels/{channel_id}/messages`) does produce different keys. -/
theorem C1_bucket_ignores_method :
    Route.bucket ⟨"GET", "/channels/{channel_id}", some "C1", none⟩ =
      Route.bucket ⟨"DELETE", "/channels/{channel_id}", some "C1", none⟩
    ∧ ("GET" : String) ≠ "DELETE"
    ∧ Route.bucket ⟨"GET", "/channels/{channel_id}", some "C1", none⟩ ≠
      Route.bucket ⟨"POST", "/channels/{channel_id}/messages", some "C1", none⟩ := by
  refine ⟨rfl, by decide, by decide⟩

/-- A limiter whose 60-second window is exhausted: the window opened at
time 0 and all 110 sends have been used. -/
def exhaustedLimiter : GatewayRatelimiter :=
  { max := 110, remaining := 0, window := 0, per := 60 }

/-- C2 (code_bug evaluation): `send_heartbeat` routes the Ping frame
through `send_payload`, which awaits `self._rate_limiter.block()`.  With
the 110-per-60s window exhausted (window opened at time 0, call at time
30) the heartbeat sleeps 30 seconds on the limiter before the Ping frame
is sent — contradicting the claim (and the source comment) that
heartbeats bypass the limiter.  An ordinary send of the same moment
produces the same limiter wait. -/
theorem C2_heartbeat_blocks_on_limiter :
    (send_heartbeat exhaustedLimiter 30).1 =
      [GwEvent.sleep 30, GwEvent.send pingPayload]
    ∧ exhaustedLimiter.is_ratelimited 30 = true
    ∧ (send_payload exhaustedLimiter 30 { type := "BeginTyping", data := 7 }).1 =
      [GwEvent.sleep 30, GwEvent.send { type := "BeginTyping", data := 7 }] := by
  refine ⟨?_, by norm_num [GatewayRatelimiter.is_ratelimited, exhaustedLimiter], ?_⟩ <;>
    norm_num [send_heartbeat, send_payload, GatewayRatelimiter.block,
      GatewayRatelimiter.get_delay, exhaustedLimiter, pingPayload]

/-- C3 (counterexample): the claim says that with `reconnect=True` a
gateway close with code 1000 never triggers a reconnect attempt and
`connect` returns cleanly.  On the code, `poll_event` raises
`ConnectionClosed(code=1000)` (1000 is in `_can_handle_close`'s tuple),
and the handler in `Client.connect` — with `reconnect=True` and the
client not closed — skips the `raise` (code equals 1000) and falls
through to the backoff sleep and another loop iteration: a reconnect
attempt, not a clean return. -/
theorem C3_code1000_reconnects_when_reconnect_true :
    connectOnClose true false (some 1000) = ConnectAction.backoffRetry ∧
    connectOnClose true false (some 1000) ≠ ConnectAction.returnCleanly := by
  exact ⟨rfl, by decide⟩

/-- C3 (amended): with `reconnect=False` a close with code 1000 makes
`connect` return cleanly without raising, while with `reconnect=True` it
leads to a backoff delay and a further connection attempt; a close with
code 4004 makes `connect` close the client and re-raise the
`ConnectionClosed` whatever the value of the reconnect flag. -/
theorem C3_close_code_handling :
    connectOnClose false false (some 1000) = ConnectAction.returnCleanly
    ∧ connectOnClose true false (some 1000) = ConnectAction.backoffRetry
    ∧ ∀ reconnect : Bool, connectOnClose reconnect false (some 4004) =
        ConnectAction.closeAndRaise (ConnectExc.connectionClosed (some 4004)) := by
  refine ⟨rfl, rfl, ?_⟩
  intro reconnect
  cases reconnect <;> rfl

/-- C5 (confirmed): the closure classification of `poll_event`
terminates the session permanently (raises `ConnectionClosed`) exactly
for the close codes `{1000, 4004, 4010, 4011, 4012, 4013, 4014}` and
signals reconnect (`ReconnectWebSocket`) for every other code. -/
theorem C5_close_code_classification (c : Int) :
    (pollClosureOutcome none (some c) = PollResult.connectionClosed (some c) ↔
      c ∈ terminalCloseCodes)
    ∧ (c ∉ terminalCloseCodes →
      pollClosureOutcome none (some c) = PollResult.reconnectWebSocket) := by
  by_cases h : c ∈ terminalCloseCodes <;>
    simp [pollClosureOutcome, can_handle_close, pyOrOpt, h]

/-- Witness for C5 at the concrete codes 4004 (terminal) and 4000
(reconnect). -/
theorem C5_close_code_classification_witness :
    (pollClosureOutcome none (some 4004) = PollResult.connectionClosed (some 4004))
    ∧ ((4000 : Int) ∉ terminalCloseCodes
        ∧ pollClosureOutcome none (some 4000) = PollResult.reconnectWebSocket) := by
  refine ⟨(C5_close_code_classification 4004).1.mpr (by decide),
    by decide, (C5_close_code_classification 4000).2 (by decide)⟩

/-- `countAttempts` is additive over trace concatenation. -/
theorem countAttempts_append (a b : List ReqEvent) :
    countAttempts (a ++ b) = countAttempts a + countAttempts b := by
  induction a with
  | nil => simp [countAttempts]
  | cons x xs ih => simp [countAttempts, ih, Nat.add_assoc]

/-- The attempt loop performs at most `fuel` HTTP attempts. -/
theorem requestLoop_attempts_le (rs : Nat → HttpResponse) :
    ∀ fuel tries last, countAttempts (requestLoop rs tries fuel last).1 ≤ fuel := by
  intro fuel
  induction fuel with
  | zero =>
    intro tries last
    unfold requestLoop
    cases last
    · simp [countAttempts]
    · dsimp only
      split <;> simp [countAttempts]
  | succ n ih =>
    intro tries last
    unfold requestLoop
    dsimp only
    repeat' split
    all_goals
      have h := ih (tries + 1) (some (rs tries))
      simp [countAttempts, countAttempts_append, isAttempt]
    all_goals omega

/-- A route that answers 503 on every attempt. -/
def resp503 : HttpResponse :=
  { status := 503, hasVia := true, data := RespData.text "Service Unavailable" }

/-- A route that answers 500 on every attempt. -/
def resp500 : HttpResponse :=
  { status := 500, hasVia := true, data := RespData.text "Internal Server Error" }

/-- C4 (counterexample): against a route that returns HTTP 503 on every
attempt, `HTTPClient.request` raises `RevoltServerError` after a single
attempt — a 503 is not in the retried set `{500, 502, 504}` and falls
through to the `response.status >= 500` raise — so it does not perform
the 5 attempts the claim describes. -/
theorem C4_503_raises_on_first_attempt :
    countAttempts (request true "b" (fun _ => resp503)).1 = 1
    ∧ (request true "b" (fun _ => resp503)).2 = ReqOutcome.revoltServerError 503
    ∧ countAttempts (request true "b" (fun _ => resp503)).1 ≠ 5 := by
  refine ⟨rfl, rfl, by decide⟩

/-- C4 (amended): `HTTPClient.request` makes at most 5 attempts per
call; against a route answering 503 on every attempt it raises
`RevoltServerError` already on the first attempt (only 500, 502 and 504
are retried), while against a route answering 500 on every attempt it
performs exactly 5 attempts, raises `RevoltServerError`, and performs no
6th attempt. -/
theorem C4_attempt_policy :
    (∀ (g : Bool) (b : String) (rs : Nat → HttpResponse),
        countAttempts (request g b rs).1 ≤ 5)
    ∧ countAttempts (request true "b" (fun _ => resp503)).1 = 1
    ∧ (request true "b" (fun _ => resp503)).2 = ReqOutcome.revoltServerError 503
    ∧ countAttempts (request true "b" (fun _ => resp500)).1 = 5
    ∧ (request true "b" (fun _ => resp500)).2 = ReqOutcome.revoltServerError 500 := by
  refine ⟨?_, rfl, rfl, rfl, rfl⟩
  intro g b rs
  have h := requestLoop_attempts_le rs 5 0 none
  cases g <;>
    simp [request, countAttempts, countAttempts_append, isAttempt] <;> omega

/-- A 429 response with the expected framing that marks the limit as
global (`Via` header present, JSON body with `global: true`). -/
def global429 (ra : ℚ) : HttpResponse :=
  { status := 429, hasVia := true, data := RespData.json ra (some true) }

/-- A 429 response with the expected framing and no `global` field. -/
def nonGlobal429 (ra : ℚ) : HttpResponse :=
  { status := 429, hasVia := true, data := RespData.json ra none }

/-- C6 (confirmed): a 429 carrying `global: true` clears the global
cooldown event, sleeps exactly `retry_after` while it is cleared, and
sets it again immediately after the sleep; while the gate is closed any
request on any bucket waits on the gate before acquiring its bucket
lock; a 429 without `global` never touches the gate and acquires only
its own bucket's lock. -/
theorem C6_global_cooldown (b : String) (g : Bool) (rs : Nat → HttpResponse)
    (ra : ℚ) (hglob : rs 0 = global429 ra) :
    (∃ rest, (request g b rs).1 =
      ((if ¬g then [ReqEvent.waitGate] else []) ++
        [ReqEvent.acquireLock b, ReqEvent.httpAttempt 0, ReqEvent.gateClear,
          ReqEvent.sleep ra, ReqEvent.gateSet]) ++ rest)
    ∧ (∀ (b2 : String) (rs2 : Nat → HttpResponse), ∃ rest2,
        (request false b2 rs2).1 =
          ReqEvent.waitGate :: ReqEvent.acquireLock b2 :: rest2)
    ∧ (∀ (b2 : String) (g2 : Bool) (ra2 : ℚ),
        ReqEvent.gateClear ∉ (request g2 b2 (fun _ => nonGlobal429 ra2)).1
        ∧ ReqEvent.gateSet ∉ (request g2 b2 (fun _ => nonGlobal429 ra2)).1
        ∧ ∀ b3, ReqEvent.acquireLock b3 ∈ (request g2 b2 (fun _ => nonGlobal429 ra2)).1 →
            b3 = b2) := by
  refine ⟨?_, ?_, ?_⟩
  · refine ⟨(requestLoop rs 1 4 (some (global429 ra))).1 ++ [ReqEvent.releaseLock b], ?_⟩
    cases g <;> simp [request, requestLoop, hglob, global429, RespData.isText]
  · intro b2 rs2
    exact ⟨(requestLoop rs2 0 5 none).1 ++ [ReqEvent.releaseLock b2], by simp [request]⟩
  · intro b2 g2 ra2
    refine ⟨?_, ?_, ?_⟩
    · cases g2 <;> simp [request, requestLoop, nonGlobal429, RespData.isText]
    · cases g2 <;> simp [request, requestLoop, nonGlobal429, RespData.isText]
    · intro b3 h
      cases g2 <;>
        simp [request, requestLoop, nonGlobal429, RespData.isText] at h <;>
        exact h

/-- Witness for C6 at a concrete global-429 route. -/
theorem C6_global_cooldown_witness :
    ((fun _ => global429 1) : Nat → HttpResponse) 0 = global429 1
    ∧ (∃ rest, (request true "bkt" (fun _ => global429 1)).1 =
        ((if ¬true then [ReqEvent.waitGate] else []) ++
          [ReqEvent.acquireLock "bkt", ReqEvent.httpAttempt 0, ReqEvent.gateClear,
            ReqEvent.sleep 1, ReqEvent.gateSet]) ++ rest) :=
  ⟨rfl, (C6_global_cooldown "bkt" true (fun _ => global429 1) 1 rfl).1⟩

/-- C7 (confirmed): a 429 response lacking the expected rate-limit
framing — no `Via` header, or a body that is not a JSON object — makes
`request` raise `HTTPException` on the spot: one attempt, no sleep, no
retry, and no global-gate event. -/
theorem C7_malformed_429_hard_failure (g : Bool) (b : String)
    (rs : Nat → HttpResponse) (h429 : (rs 0).status = 429)
    (hmal : (rs 0).hasVia = false ∨ (rs 0).data.isText = true) :
    request g b rs =
      ((if ¬g then [ReqEvent.waitGate] else []) ++
        [ReqEvent.acquireLock b, ReqEvent.httpAttempt 0, ReqEvent.releaseLock b],
       ReqOutcome.httpException 429) := by
  rcases hmal with h | h <;>
    cases g <;> simp [request, requestLoop, h429, h]

/-- Witness for C7: a 429 with a JSON body but no `Via` header fails
hard after one attempt. -/
theorem C7_malformed_429_hard_failure_witness :
    (({ status := 429, hasVia := false, data := RespData.json 1 none } : HttpResponse).status = 429
      ∧ ({ status := 429, hasVia := false, data := RespData.json 1 none } : HttpResponse).hasVia = false)
    ∧ request true "bkt" (fun _ => { status := 429, hasVia := false, data := RespData.json 1 none }) =
      ((if ¬true then [ReqEvent.waitGate] else []) ++
        [ReqEvent.acquireLock "bkt", ReqEvent.httpAttempt 0, ReqEvent.releaseLock "bkt"],
       ReqOutcome.httpException 429) :=
  ⟨⟨rfl, rfl⟩,
    C7_malformed_429_hard_failure true "bkt"
      (fun _ => { status := 429, hasVia := false, data := RespData.json 1 none })
      rfl (Or.inl rfl)⟩

/-- C8 (confirmed): `static_login` raises `LoginFailure` exactly when
the authenticated self-fetch fails with HTTP status 401, and on every
`HTTPException` the stored token is restored to its previous value
before the error propagates. -/
theorem C8_login_failure_and_token_restore (stored : Option Token)
    (tok : Token) (fetch : FetchResult) :
    ((static_login stored tok fetch).2 = LoginOutcome.loginFailure ↔
      fetch = FetchResult.httpError 401)
    ∧ (∀ s, fetch = FetchResult.httpError s →
        (static_login stored tok fetch).1 = stored) := by
  constructor
  · cases fetch with
    | ok u => simp [static_login]
    | httpError s => by_cases h : s = 401 <;> simp [static_login, h]
  · rintro s rfl
    simp only [static_login]
    split <;> rfl

/-- Witness for C8: a 401 self-fetch yields `LoginFailure` and puts the
old token back. -/
theorem C8_login_failure_and_token_restore_witness :
    (static_login (some ⟨"bot", "t0"⟩) ⟨"bot", "t1"⟩ (FetchResult.httpError 401)).2 =
      LoginOutcome.loginFailure
    ∧ (static_login (some ⟨"bot", "t0"⟩) ⟨"bot", "t1"⟩ (FetchResult.httpError 401)).1 =
      some ⟨"bot", "t0"⟩ :=
  ⟨(C8_login_failure_and_token_restore (some ⟨"bot", "t0"⟩) ⟨"bot", "t1"⟩
      (FetchResult.httpError 401)).1.mpr rfl,
   (C8_login_failure_and_token_restore (some ⟨"bot", "t0"⟩) ⟨"bot", "t1"⟩
      (FetchResult.httpError 401)).2 401 rfl⟩

/-- C9 (confirmed): when `poll_event`'s blocking receive times out, the
call returns normally, the running keep-alive handler (if any) is
stopped and the session's keep-alive reference becomes `None`; a
subsequent `Authenticated` frame installs a fresh running handler. -/
theorem C9_timeout_stops_keepalive (st : WSState) :
    (poll_event_timeout st).2.2 = PollResult.normalReturn
    ∧ (poll_event_timeout st).1.keep_alive = none
    ∧ (∀ ka, st.keep_alive = some ka →
        (poll_event_timeout st).2.1 = some { ka with stopEvSet := true })
    ∧ (received_authenticated (poll_event_timeout st).1).keep_alive =
        some { stopEvSet := false } := by
  obtain ⟨k⟩ := st
  cases k <;> simp [poll_event_timeout, received_authenticated]

/-- Witness for C9 with a running keep-alive handler. -/
theorem C9_timeout_stops_keepalive_witness :
    (WSState.mk (some ⟨false⟩)).keep_alive = some ⟨false⟩
    ∧ (poll_event_timeout ⟨some ⟨false⟩⟩).2.1 = some ⟨true⟩ :=
  ⟨rfl, (C9_timeout_stops_keepalive ⟨some ⟨false⟩⟩).2.2.1 ⟨false⟩ rfl⟩

/-- The indices at which the scan loop appends to `removed`, for a list
of per-entry removal flags, starting at index `i`. -/
def removedIdx : List Bool → Nat → List Nat
  | [], _ => []
  | b :: bs, i => if b then i :: removedIdx bs (i + 1) else removedIdx bs (i + 1)

theorem removedIdx_shift (bs : List Bool) :
    ∀ i, removedIdx bs (i + 1) = (removedIdx bs i).map (· + 1) := by
  induction bs with
  | nil => intro i; simp [removedIdx]
  | cons b bs ih => intro i; cases b <;> simp [removedIdx, ih]

/-- Deleting only at successor indices leaves the head untouched. -/
theorem foldl_pyDeleteAt_mapSucc {α : Type} (idxs : List Nat) :
    ∀ (x : α) (xs : List α),
      List.foldl pyDeleteAt (x :: xs) (idxs.map (· + 1)) =
        x :: List.foldl pyDeleteAt xs idxs := by
  induction idxs with
  | nil => intro x xs; simp
  | cons n ns ih => intro x xs; simp [pyDeleteAt, ih]

/-- Deleting only successor indices from the back keeps the head. -/
theorem deleteReversed_cons_mapSucc {α : Type} (x : α) (xs : List α)
    (R : List Nat) :
    deleteReversed (x :: xs) (R.map (· + 1)) = x :: deleteReversed xs R := by
  unfold deleteReversed
  rw [← List.map_reverse, foldl_pyDeleteAt_mapSucc]

/-- Deleting index 0 last, after successor indices, drops the head and
performs the shifted deletions on the tail. -/
theorem deleteReversed_cons_zero {α : Type} (x : α) (xs : List α)
    (R : List Nat) :
    deleteReversed (x :: xs) (0 :: R.map (· + 1)) = deleteReversed xs R := by
  unfold deleteReversed
  rw [List.reverse_cons, List.foldl_append, ← List.map_reverse,
    foldl_pyDeleteAt_mapSucc]
  simp [pyDeleteAt]

/-- Deleting, from the back, the indices flagged by `p` out of the image
of `f` keeps exactly the unflagged entries, in order. -/
theorem deleteReversed_removedIdx {α β : Type} (f : α → β) (p : α → Bool) :
    ∀ ls : List α,
      deleteReversed (ls.map f) (removedIdx (ls.map p) 0) =
        (ls.filter (fun e => !(p e))).map f := by
  intro ls
  induction ls with
  | nil => simp [deleteReversed, removedIdx]
  | cons e ls ih =>
    rw [List.map_cons, List.map_cons]
    cases hp : p e with
    | false =>
      rw [show removedIdx (false :: List.map p ls) 0 =
          (removedIdx (List.map p ls) 0).map (· + 1) from by
        simp [removedIdx, removedIdx_shift]]
      rw [deleteReversed_cons_mapSucc, ih, List.filter_cons]
      simp [hp]
    | true =>
      rw [show removedIdx (true :: List.map p ls) 0 =
          0 :: (removedIdx (List.map p ls) 0).map (· + 1) from by
        simp [removedIdx, removedIdx_shift]]
      rw [deleteReversed_cons_zero, ih, List.filter_cons]
      simp [hp]

/-- The first scan phase of `received_payload` processes every entry in
insertion order and records exactly the flagged indices. -/
theorem scanListeners_spec (ev : String) (d : Nat) :
    ∀ (ls : List EventListener) (i : Nat),
      scanListeners ev d ls i =
        Except.ok (ls.map (fun e => (processEntry ev d e).1),
          removedIdx (ls.map (fun e => (processEntry ev d e).2)) i) := by
  intro ls
  induction ls with
  | nil => intro i; simp [scanListeners, removedIdx]
  | cons e ls ih => intro i; simp [scanListeners, ih, removedIdx]

/-- The first scan phase of `Client.dispatch`, same shape. -/
theorem dispatchScan_spec (arg : Nat) :
    ∀ (ls : List ClientListener) (i : Nat),
      dispatchScan arg ls i =
        Except.ok (ls.map (fun l => (processClientListener arg l).1),
          removedIdx (ls.map (fun l => (processClientListener arg l).2)) i) := by
  intro ls
  induction ls with
  | nil => intro i; simp [dispatchScan, removedIdx]
  | cons l ls ih => intro i; simp [dispatchScan, ih, removedIdx]

theorem removedIdx_length_le (bs : List Bool) :
    ∀ i, (removedIdx bs i).length ≤ bs.length := by
  induction bs with
  | nil => intro i; simp [removedIdx]
  | cons b bs ih =>
    intro i
    cases b <;> simp [removedIdx] <;> have := ih (i + 1) <;> omega

/-- When the scan flagged every index, no entry survives the filter. -/
theorem filter_eq_nil_of_all_removed {α : Type} (p : α → Bool) :
    ∀ ls : List α, (removedIdx (ls.map p) 0).length = ls.length →
      ls.filter (fun e => !(p e)) = [] := by
  intro ls
  induction ls with
  | nil => intro _; simp
  | cons e ls ih =>
    cases hp : p e with
    | false =>
      intro h
      exfalso
      rw [List.map_cons, hp] at h
      simp [removedIdx, removedIdx_shift] at h
      have := removedIdx_length_le (ls.map p) 0
      simp only [List.length_map] at this
      omega
    | true =>
      intro h
      rw [List.map_cons, hp] at h
      simp [removedIdx, removedIdx_shift] at h
      rw [List.filter_cons]
      simp only [hp, Bool.not_true, if_neg Bool.false_ne_true]
      exact ih (by omega)

/-- C10 (confirmed): in the listener scan of `received_payload` a raising
predicate gets its exception set on the listener's future and the
listener removed; the scan processes every entry in insertion order and
keeps, in order, exactly the non-removed entries, and it never lets an
exception escape into the receive loop (the result is always `ok`).  The
same holds for `Client.dispatch`'s listener table. -/
theorem C10_listener_scan_contains_exceptions (ev : String) (d : Nat) :
    (∀ ls : List EventListener,
      received_payload_scan ev d ls =
        Except.ok (ls.map (fun e => (processEntry ev d e).1),
          (ls.filter (fun e => !((processEntry ev d e).2))).map
            (fun e => (processEntry ev d e).1)))
    ∧ (∀ (e : EventListener) (exc : Nat), e.event = ev →
        e.future = FutureState.pending → e.predicate d = Except.error exc →
        processEntry ev d e = ({ e with future := FutureState.failed exc }, true))
    ∧ (∀ (arg : Nat) (ls : List ClientListener),
        dispatch_listeners arg ls =
          Except.ok (ls.map (fun l => (processClientListener arg l).1),
            (ls.filter (fun l => !((processClientListener arg l).2))).map
              (fun l => (processClientListener arg l).1)))
    ∧ (∀ (arg : Nat) (l : ClientListener) (exc : Nat),
        l.future = FutureState.pending → l.condition arg = Except.error exc →
        processClientListener arg l =
          ({ l with future := FutureState.failed exc }, true)) := by
  refine ⟨?_, ?_, ?_, ?_⟩
  · intro ls
    simp only [received_payload_scan, scanListeners_spec]
    rw [deleteReversed_removedIdx]
  · intro e exc hev hfut hpred
    simp [processEntry, hev, hfut, hpred]
  · intro arg ls
    simp only [dispatch_listeners, dispatchScan_spec]
    by_cases hall :
        (removedIdx (ls.map (fun l => (processClientListener arg l).2)) 0).length =
          ls.length
    · rw [if_pos (by simpa using hall),
        filter_eq_nil_of_all_removed (fun l => (processClientListener arg l).2) ls hall]
      simp
    · rw [if_neg (by simpa using hall), deleteReversed_removedIdx]
  · intro arg l exc hfut hcond
    simp [processClientListener, hfut, hcond]

/-- A listener whose predicate raises exception 7 on any payload. -/
def badListener : EventListener :=
  { event := "message", predicate := fun _ => Except.error 7,
    result := none, future := FutureState.pending }

/-- A listener whose predicate accepts any payload. -/
def okListener : EventListener :=
  { event := "message", predicate := fun _ => Except.ok true,
    result := none, future := FutureState.pending }

/-- Witness for C10: a raising listener followed by an accepting one. -/
theorem C10_listener_scan_contains_exceptions_witness :
    (badListener.event = "message" ∧ badListener.future = FutureState.pending
      ∧ badListener.predicate 5 = Except.error 7)
    ∧ processEntry "message" 5 badListener =
        ({ badListener with future := FutureState.failed 7 }, true)
    ∧ received_payload_scan "message" 5 [badListener, okListener] =
        Except.ok ([badListener, okListener].map
            (fun e => (processEntry "message" 5 e).1),
          ([badListener, okListener].filter
              (fun e => !((processEntry "message" 5 e).2))).map
            (fun e => (processEntry "message" 5 e).1)) :=
  ⟨⟨rfl, rfl, rfl⟩,
   (C10_listener_scan_contains_exceptions "message" 5).2.1 badListener 7 rfl rfl rfl,
   (C10_listener_scan_contains_exceptions "message" 5).1 [badListener, okListener]⟩

end Pyvolt
